import Mathlib

/-!
# Verification of the AIE8 repository against its specification

Shallow embedding of the repository's Python code in Lean 4, together with
theorems settling the frozen claims about it.  Text is modelled as `List Char`
(`PyText`), Python's fallible operations as `Except`, and every external
service (paper search, chat model, vector index, HTTP exchange) as an explicit
oracle argument, so that each embedded function is a pure, executable Lean
definition mirroring the source line by line.
-/

set_option maxRecDepth 8000

/-- Python text (`str`) modelled as a list of characters. -/
abbrev PyText := List Char

/-! ## Python primitives used by the embedded code -/

/-- Python `range(0, stop, step)` for an integer `step`.
For `step > 0` this is the list `[0, step, 2*step, ...]` of the multiples of
`step` strictly below `stop`; for `step < 0` (and `stop ≥ 0`) it is empty.
(`step = 0` raises `ValueError` in Python; the embedded callers never pass 0,
the splitter constructor having asserted a positive stride.) -/
def pyRange (stop : Nat) (step : Int) : List Nat :=
  if step ≤ 0 then []
  else (List.range ((stop + step.toNat - 1) / step.toNat)).map (· * step.toNat)

/-- Python slice `l[start:stop]` for a non-negative `start` and an arbitrary
integer `stop` (a negative `stop` counts from the end of the list). -/
def pySlice (l : PyText) (start : Nat) (stop : Int) : PyText :=
  (l.take (if stop < 0 then max 0 ((l.length : Int) + stop)
           else min stop (l.length : Int)).toNat).drop start

/-- Python whitespace test used by `str.strip()`. -/
def isPySpace (c : Char) : Bool :=
  c = ' ' || c = '\t' || c = '\n' || c = '\r' || c = '\x0b' || c = '\x0c'

/-- Python `s.strip()`: remove leading and trailing whitespace. -/
def pyStrip (s : PyText) : PyText :=
  ((s.dropWhile isPySpace).reverse.dropWhile isPySpace).reverse

/-- Fuel-indexed worker for `pyReplace`; the fuel (initially the length of the
subject) never runs out because each step consumes at least one character. -/
def pyReplaceAux (pat : PyText) : Nat → PyText → PyText
  | 0, s => s
  | _ + 1, [] => []
  | fuel + 1, c :: rest =>
    if pat ≠ [] ∧ pat.isPrefixOf (c :: rest) = true then
      pyReplaceAux pat fuel ((c :: rest).drop pat.length)
    else
      c :: pyReplaceAux pat fuel rest

/-- Python `s.replace(pat, '')` for a non-empty `pat`: remove every
occurrence of `pat`, scanning left to right. -/
def pyReplace (pat s : PyText) : PyText :=
  pyReplaceAux pat s.length s

/-- Python `s.split('\n')`: split into lines, keeping empty segments. -/
def splitLines (s : PyText) : List PyText :=
  s.foldr
    (fun c acc =>
      if c = '\n' then [] :: acc
      else
        match acc with
        | h :: t => (c :: h) :: t
        | [] => [[c]])
    [[]]

/-- Python `s.startswith(pat)`. -/
def pyStartswith (s pat : PyText) : Bool := pat.isPrefixOf s

/-! ## `02_Embeddings_and_RAG/aimakerspace/text_utils.py`: `CharacterTextSplitter` -/

/-- The `CharacterTextSplitter` object: the two integer fields stored by its
constructor. -/
structure CharacterTextSplitter where
  chunk_size : Int
  chunk_overlap : Int
deriving Repr, DecidableEq

/-- `CharacterTextSplitter.__init__`: `assert chunk_size > chunk_overlap`
("Chunk size must be greater than chunk overlap"), then store both fields.
The failing assert is modelled as an error value. -/
def CharacterTextSplitter.init (chunk_size chunk_overlap : Int) :
    Except String CharacterTextSplitter :=
  if chunk_size > chunk_overlap then .ok ⟨chunk_size, chunk_overlap⟩
  else .error "Chunk size must be greater than chunk overlap"

/-- `CharacterTextSplitter.split`:
`for i in range(0, len(text), self.chunk_size - self.chunk_overlap):
chunks.append(text[i : i + self.chunk_size])`. -/
def CharacterTextSplitter.split (self : CharacterTextSplitter) (text : PyText) : List PyText :=
  (pyRange text.length (self.chunk_size - self.chunk_overlap)).map
    (fun i => pySlice text i ((i : Int) + self.chunk_size))

/-! ### Basic facts about the splitter -/

lemma lt_ceilDiv_iff {k L d : Nat} (hd : 0 < d) :
    k < (L + d - 1) / d ↔ k * d < L := by
  rw [Nat.lt_iff_add_one_le, Nat.le_div_iff_mul_le hd, Nat.succ_mul]
  generalize k * d = m
  omega

lemma pyRange_pos (stop d : Nat) (hd : 0 < d) :
    pyRange stop (d : Int) = (List.range ((stop + d - 1) / d)).map (· * d) := by
  have h1 : ¬ ((d : Int) ≤ 0) := by exact_mod_cast Nat.not_le.mpr hd
  simp [pyRange, h1]

/-- For natural-number parameters the slice `text[i : i + S]` is
`(text.drop i).take S`. -/
lemma pySlice_nat (text : PyText) (i S : Nat) :
    pySlice text i ((i : Int) + (S : Nat)) = (text.drop i).take S := by
  unfold pySlice
  have hnn : ¬ (((i : Int) + ((S : Nat) : Int)) < 0) := by omega
  rw [if_neg hnn]
  have hmin : (min ((i : Int) + (S : Nat)) (text.length : Int)).toNat
      = min (i + S) text.length := by omega
  rw [hmin]
  rcases le_or_lt (i + S) text.length with hle | hlt
  · rw [Nat.min_eq_left hle]
    exact (List.take_drop ..).symm
  · rw [Nat.min_eq_right (Nat.le_of_lt hlt), List.take_length]
    have hlen : (text.drop i).length ≤ S := by
      rw [List.length_drop]; omega
    exact (List.take_of_length_le hlen).symm

/-- `split` at natural-number parameters, in explicit closed form: one chunk
per multiple of the stride `S − O` below the text length. -/
lemma split_mk_eq (S O : Nat) (h : O < S) (text : PyText) :
    (CharacterTextSplitter.mk (S : Int) (O : Int)).split text
      = (List.range ((text.length + (S - O) - 1) / (S - O))).map
          (fun k => (text.drop (k * (S - O))).take S) := by
  unfold CharacterTextSplitter.split
  have hSO : ((S : Int) - (O : Int)) = ((S - O : Nat) : Int) := by omega
  rw [hSO, pyRange_pos _ _ (by omega), List.map_map]
  refine List.map_congr_left ?_
  intro k _
  simpa using pySlice_nat text (k * (S - O)) S

/-! ### Claims about the splitter -/

/-- C8: constructing a `CharacterTextSplitter` with `chunk_overlap ≥ chunk_size`
fails with an invalid-input error; with `chunk_size > chunk_overlap` construction
succeeds, storing both fields, and the stride `chunk_size − chunk_overlap` is
strictly positive. -/
theorem claim_C8_splitter_init (chunk_size chunk_overlap : Int) :
    (chunk_overlap ≥ chunk_size →
      CharacterTextSplitter.init chunk_size chunk_overlap
        = .error "Chunk size must be greater than chunk overlap") ∧
    (chunk_size > chunk_overlap →
      CharacterTextSplitter.init chunk_size chunk_overlap
          = .ok ⟨chunk_size, chunk_overlap⟩
        ∧ 0 < chunk_size - chunk_overlap) := by
  constructor
  · intro hge
    rw [CharacterTextSplitter.init, if_neg (by omega)]
  · intro hgt
    exact ⟨by rw [CharacterTextSplitter.init, if_pos hgt], by omega⟩

/-- Witness for C8 at the spec's example 500/500 and at the defaults 1000/200. -/
theorem claim_C8_splitter_init_witness :
    CharacterTextSplitter.init 500 500
        = .error "Chunk size must be greater than chunk overlap"
    ∧ CharacterTextSplitter.init 1000 200 = .ok ⟨1000, 200⟩ :=
  ⟨(claim_C8_splitter_init 500 500).1 (by norm_num),
   ((claim_C8_splitter_init 1000 200).2 (by norm_num)).1⟩

/-- C1 counterexample: splitting a 2500-character text with `chunk_size = 1000`,
`chunk_overlap = 200` yields 4 chunks whose lengths are 1000, 1000, 900, 100:
the chunk at index 2 — not the final one — has length 900 < 1000, refuting
"only the final chunk may be shorter than S". -/
theorem claim_C1_counterexample :
    ((CharacterTextSplitter.mk 1000 200).split (List.replicate 2500 'a')).length = 4
    ∧ (((CharacterTextSplitter.mk 1000 200).split (List.replicate 2500 'a')).map
        List.length) = [1000, 1000, 900, 100]
    ∧ 900 < 1000 := by
  have he := split_mk_eq 1000 200 (by norm_num) (List.replicate 2500 'a')
  simp only [Nat.cast_ofNat, List.length_replicate] at he
  norm_num at he
  have hr : List.range 4 = [0, 1, 2, 3] := rfl
  rw [hr] at he
  rw [he]
  refine ⟨rfl, ?_, by norm_num⟩
  simp [List.length_take, List.length_drop]

/-- C1 (amended): for `S > O` the chunks' starting offsets are exactly the
multiples of `S − O` below the text length `L`, the k-th chunk equals the slice
of the text starting at offset `k·(S−O)`, every chunk has length at most `S`,
and the k-th chunk's length is exactly `min S (L − k·(S−O))` — so every chunk
whose window extends past the end of the text (possibly more than one, not
only the final chunk) is shorter than `S`, and all others have length exactly
`S`. -/
theorem claim_C1_sliding_window (S O : Nat) (h : O < S) (text : PyText) :
    ((CharacterTextSplitter.mk (S : Int) (O : Int)).split text).length
        = (text.length + (S - O) - 1) / (S - O)
    ∧ (∀ k : Nat, k < ((CharacterTextSplitter.mk (S : Int) (O : Int)).split text).length
        ↔ k * (S - O) < text.length)
    ∧ (∀ k : Nat, k * (S - O) < text.length →
        ((CharacterTextSplitter.mk (S : Int) (O : Int)).split text)[k]?
            = some ((text.drop (k * (S - O))).take S))
    ∧ (∀ c ∈ (CharacterTextSplitter.mk (S : Int) (O : Int)).split text, c.length ≤ S)
    ∧ (∀ k : Nat, k * (S - O) < text.length →
        ((((CharacterTextSplitter.mk (S : Int) (O : Int)).split text)[k]?.getD []).length
            = min S (text.length - k * (S - O)))) := by
  have hd : 0 < S - O := by omega
  rw [split_mk_eq S O h]
  refine ⟨by simp, fun k => ?_, fun k hk => ?_, fun c hc => ?_, fun k hk => ?_⟩
  · rw [List.length_map, List.length_range]
    exact lt_ceilDiv_iff hd
  · have hk2 : k < (text.length + (S - O) - 1) / (S - O) := (lt_ceilDiv_iff hd).2 hk
    simp [List.getElem?_map, List.getElem?_range, hk2]
  · obtain ⟨k, _, rfl⟩ := List.mem_map.1 hc
    rw [List.length_take]
    exact Nat.min_le_left ..
  · have hk2 : k < (text.length + (S - O) - 1) / (S - O) := (lt_ceilDiv_iff hd).2 hk
    simp [List.getElem?_map, List.getElem?_range, hk2, List.length_take, List.length_drop]

/-- Witness for C1 (amended) at the spec's example: a 2500-character text with
S = 1000, O = 200 gives 4 chunks; the chunk at offset index 3 starts at 2400
and has length 100. -/
theorem claim_C1_sliding_window_witness :
    200 < 1000
    ∧ ((CharacterTextSplitter.mk 1000 200).split (List.replicate 2500 'a')).length = 4
    ∧ ((((CharacterTextSplitter.mk 1000 200).split
          (List.replicate 2500 'a'))[3]?.getD []).length = 100) := by
  have h := claim_C1_sliding_window 1000 200 (by norm_num) (List.replicate 2500 'a')
  simp only [Nat.cast_ofNat] at h
  refine ⟨by norm_num, ?_, ?_⟩
  · rw [h.1]; simp
  · have h3 := h.2.2.2.2 3 (by simp)
    rw [h3]; simp

/-- C10: `split` returns the empty chunk list exactly on empty input; on
non-empty input the first chunk is the first `min (len text) S` characters of
the text (the slice at offset 0), and every chunk is a contiguous substring
(infix) of the input text. -/
theorem claim_C10_split_nonempty (S O : Nat) (h : O < S) (text : PyText) :
    ((CharacterTextSplitter.mk (S : Int) (O : Int)).split text = [] ↔ text = [])
    ∧ (text ≠ [] →
        ∃ rest, (CharacterTextSplitter.mk (S : Int) (O : Int)).split text
              = text.take S :: rest
          ∧ (text.take S).length = min text.length S)
    ∧ (∀ c ∈ (CharacterTextSplitter.mk (S : Int) (O : Int)).split text, c <:+: text) := by
  have hd : 0 < S - O := by omega
  rw [split_mk_eq S O h]
  refine ⟨?_, fun hne => ?_, fun c hc => ?_⟩
  · rw [List.map_eq_nil_iff, List.range_eq_nil, Nat.div_eq_zero_iff hd,
      ← List.length_eq_zero]
    omega
  · have hlen : 0 < text.length := List.length_pos.2 hne
    have hpos : 0 < (text.length + (S - O) - 1) / (S - O) :=
      (lt_ceilDiv_iff hd).2 (by omega)
    obtain ⟨n, hn⟩ : ∃ n, (text.length + (S - O) - 1) / (S - O) = n + 1 :=
      ⟨_, (Nat.succ_pred_eq_of_pos hpos).symm⟩
    rw [hn, List.range_succ_eq_map, List.map_cons]
    refine ⟨(List.range n).map
      ((fun k => (text.drop (k * (S - O))).take S) ∘ Nat.succ), by simp, ?_⟩
    rw [List.length_take]
    omega
  · obtain ⟨k, _, rfl⟩ := List.mem_map.1 hc
    exact ((List.take_prefix _ _).isInfix).trans ((List.drop_suffix _ _).isInfix)

/-- Witness for C10: splitting the empty text gives no chunks; splitting "ab"
with S = 3, O = 1 gives the single chunk "ab", an infix of the input. -/
theorem claim_C10_split_nonempty_witness :
    ((CharacterTextSplitter.mk 3 1).split [] = [])
    ∧ (∃ rest, (CharacterTextSplitter.mk 3 1).split ['a', 'b']
          = ['a', 'b'].take 3 :: rest
        ∧ (['a', 'b'].take 3).length = min (['a', 'b'] : PyText).length 3) := by
  constructor
  · exact (claim_C10_split_nonempty 3 1 (by norm_num) []).1.2 rfl
  · exact (claim_C10_split_nonempty 3 1 (by norm_num) ['a', 'b']).2.1 (by decide)

/-! ## `06_Multi_Agent_with_LangGraph/dynamic_arxiv_solution.py` -/

/-- The mutable `current_paper` dict of the parser in `fetch_arxiv_papers`:
each of the three keys may or may not have been set yet. -/
structure PaperRec where
  title : Option PyText := none
  authors : Option PyText := none
  summary : Option PyText := none
deriving Repr, DecidableEq

/-- One line of the parser loop body of `fetch_arxiv_papers`: set the field
whose `Title:`/`Authors:`/`Summary:` prefix matches; on a `Summary:` line,
if a (truthy, i.e. non-empty) title had been captured, append a copy of the
record and reset. -/
def parseLine (st : PaperRec × List PaperRec) (line : PyText) : PaperRec × List PaperRec :=
  if pyStartswith line "Title:".toList then
    ({ st.1 with title := some (pyStrip (pyReplace "Title:".toList line)) }, st.2)
  else if pyStartswith line "Authors:".toList then
    ({ st.1 with authors := some (pyStrip (pyReplace "Authors:".toList line)) }, st.2)
  else if pyStartswith line "Summary:".toList then
    let cur : PaperRec := { st.1 with summary := some (pyStrip (pyReplace "Summary:".toList line)) }
    match cur.title with
    | some t => if t ≠ [] then (⟨none, none, none⟩, st.2 ++ [cur]) else (cur, st.2)
    | none => (cur, st.2)
  else st

/-- The parsing loop of `fetch_arxiv_papers` over the lines of the search
result. -/
def parsePapers (lines : List PyText) : List PaperRec :=
  (lines.foldl parseLine (⟨none, none, none⟩, [])).2

/-- A LangChain `Document` as built by `fetch_arxiv_papers`: rendered page
content plus the metadata fields it sets. -/
structure ArxivDocument where
  page_content : PyText
  title : PyText
  authors : PyText
  source : PyText
deriving Repr, DecidableEq

/-- Conversion of the `i`-th retained paper record (0-based) to a `Document`.
Reading a key that was never set raises `KeyError` in Python, modelled as an
error value; only `authors` can actually be missing for an appended record. -/
def paperToDocument (i : Nat) (p : PaperRec) : Except Unit ArxivDocument :=
  match p.title, p.authors, p.summary with
  | some t, some a, some s =>
    .ok { page_content :=
            "Title: ".toList ++ t ++ "\nAuthors: ".toList ++ a ++ "\nSummary: ".toList ++ s,
          title := t, authors := a,
          source := "arxiv_paper_".toList ++ Nat.toDigits 10 (i + 1) }
  | _, _, _ => .error ()

/-- The document-building loop of `fetch_arxiv_papers` (index `i` is the
position of the first record in the original enumeration). -/
def papersToDocuments (i : Nat) : List PaperRec → Except Unit (List ArxivDocument)
  | [] => .ok []
  | p :: rest => do
    let d ← paperToDocument i p
    let ds ← papersToDocuments (i + 1) rest
    return d :: ds

/-- The module-level `paper_cache` dict, keyed by the rendered cache key. -/
abbrev PaperCache := List (PyText × List ArxivDocument)

/-- Lookup in `paper_cache`. -/
def cacheLookup (key : PyText) : PaperCache → Option (List ArxivDocument)
  | [] => none
  | (k, v) :: rest => if k = key then some v else cacheLookup key rest

/-- `cache_key = f"{query}_{max_papers}"`. -/
def cacheKey (query : PyText) (max_papers : Nat) : PyText :=
  query ++ ('_' :: Nat.toDigits 10 max_papers)

/-- Result of one `fetch_arxiv_papers` call: its return value, the cache it
leaves behind, and how many external searches it issued. -/
structure FetchOutcome where
  result : List ArxivDocument
  cache : PaperCache
  externalCalls : Nat
deriving Repr, DecidableEq

/-- `fetch_arxiv_papers(query, max_papers)`.  The oracle `arxivRun` models
`arxiv_tool.run(query)`, with `.error ()` for a raised exception; the
`except Exception` handler of the source makes any exception during
fetch/parse yield `[]` without touching the cache. -/
def fetch_arxiv_papers (arxivRun : PyText → Except Unit PyText)
    (paper_cache : PaperCache) (query : PyText) (max_papers : Nat) : FetchOutcome :=
  match cacheLookup (cacheKey query max_papers) paper_cache with
  | some docs => ⟨docs, paper_cache, 0⟩
  | none =>
    match arxivRun query with
    | .error _ => ⟨[], paper_cache, 1⟩
    | .ok results =>
      match papersToDocuments 0 ((parsePapers (splitLines results)).take max_papers) with
      | .error _ => ⟨[], paper_cache, 1⟩
      | .ok documents =>
        ⟨documents, (cacheKey query max_papers, documents) :: paper_cache, 1⟩

/-- Result of one `create_dynamic_rag` call: the answer text, the cache left
behind, the number of external searches, and whether the vector index and the
chat model were used at all. -/
structure DynamicRagOutcome where
  answer : PyText
  cache : PaperCache
  externalCalls : Nat
  indexBuilt : Bool
  llmCalls : Nat
deriving Repr, DecidableEq

/-- `create_dynamic_rag(query)`: fetch up to 2 papers; if the list is empty
(falsy), return the fixed message; otherwise build the in-memory index,
retrieve, and answer via the chat model — all of which the oracle
`chainAnswer` models as one function of the fetched documents and the query. -/
def create_dynamic_rag (arxivRun : PyText → Except Unit PyText)
    (chainAnswer : List ArxivDocument → PyText → PyText)
    (paper_cache : PaperCache) (query : PyText) : DynamicRagOutcome :=
  let f := fetch_arxiv_papers arxivRun paper_cache query 2
  if f.result = [] then
    ⟨"No papers found for this topic.".toList, f.cache, f.externalCalls, false, 0⟩
  else
    ⟨chainAnswer f.result query, f.cache, f.externalCalls, true, 1⟩

/-! ### Claims about the paper fetcher -/

/-- The first call for a key completed without an exception: either the key was
already cached, or the external search succeeded and the parsed records all
converted to documents. -/
def fetchSucceeds (arxivRun : PyText → Except Unit PyText)
    (paper_cache : PaperCache) (query : PyText) (max_papers : Nat) : Prop :=
  cacheLookup (cacheKey query max_papers) paper_cache ≠ none
  ∨ ∃ s, arxivRun query = .ok s
      ∧ (papersToDocuments 0 ((parsePapers (splitLines s)).take max_papers)).isOk = true

/-- C4: after a first `fetch_arxiv_papers` call for `(query, max_papers)` that
completed without an exception, a second call with the identical pair returns
the very document list the first call produced, leaves the cache unchanged,
and issues no external search. -/
theorem claim_C4_fetch_idempotent (arxivRun : PyText → Except Unit PyText)
    (c : PaperCache) (q : PyText) (m : Nat)
    (hfirst : fetchSucceeds arxivRun c q m) :
    (fetch_arxiv_papers arxivRun (fetch_arxiv_papers arxivRun c q m).cache q m).result
        = (fetch_arxiv_papers arxivRun c q m).result
    ∧ (fetch_arxiv_papers arxivRun (fetch_arxiv_papers arxivRun c q m).cache q m).externalCalls
        = 0
    ∧ (fetch_arxiv_papers arxivRun (fetch_arxiv_papers arxivRun c q m).cache q m).cache
        = (fetch_arxiv_papers arxivRun c q m).cache := by
  rcases hc : cacheLookup (cacheKey q m) c with _ | docs
  · rcases hfirst with hhit | ⟨s, harx, hconv⟩
    · exact absurd hc hhit
    · rcases hres : papersToDocuments 0 ((parsePapers (splitLines s)).take m) with e | ds
      · rw [hres] at hconv
        simp [Except.isOk, Except.toBool] at hconv
      · simp [fetch_arxiv_papers, hc, harx, hres, cacheLookup]
  · simp [fetch_arxiv_papers, hc]

/-- Witness for C4: a concrete search oracle answering one well-formed record;
the second call issues no external search and returns the first call's list. -/
theorem claim_C4_fetch_idempotent_witness :
    (fetch_arxiv_papers
        (fun _ => .ok "Title: T\nAuthors: A\nSummary: S".toList)
        (fetch_arxiv_papers (fun _ => .ok "Title: T\nAuthors: A\nSummary: S".toList)
          [] "agents".toList 2).cache
        "agents".toList 2).externalCalls = 0 :=
  (claim_C4_fetch_idempotent (fun _ => .ok "Title: T\nAuthors: A\nSummary: S".toList)
    [] "agents".toList 2
    (Or.inr ⟨"Title: T\nAuthors: A\nSummary: S".toList, rfl, by decide⟩)).2.1

/-- C9: on a cache miss, a raised external search leaves the cache unchanged
(so the next call re-issues the external search), a parse/convert exception
likewise yields `[]` without caching, and an exception-free fetch — even one
with zero paper records — stores its (possibly empty) document list under the
key. -/
theorem claim_C9_fetch_error_not_cached (arxivRun : PyText → Except Unit PyText)
    (c : PaperCache) (q : PyText) (m : Nat)
    (hmiss : cacheLookup (cacheKey q m) c = none) :
    (∀ e : Unit, arxivRun q = .error e →
        fetch_arxiv_papers arxivRun c q m = ⟨[], c, 1⟩
      ∧ (fetch_arxiv_papers arxivRun (fetch_arxiv_papers arxivRun c q m).cache q m).externalCalls
          = 1)
    ∧ (∀ s, arxivRun q = .ok s →
        (papersToDocuments 0 ((parsePapers (splitLines s)).take m)).isOk = false →
        fetch_arxiv_papers arxivRun c q m = ⟨[], c, 1⟩)
    ∧ (∀ s ds, arxivRun q = .ok s →
        papersToDocuments 0 ((parsePapers (splitLines s)).take m) = .ok ds →
        (fetch_arxiv_papers arxivRun c q m).result = ds
      ∧ cacheLookup (cacheKey q m) (fetch_arxiv_papers arxivRun c q m).cache = some ds) := by
  refine ⟨fun e herr => ?_, fun s hok hbad => ?_, fun s ds hok hres => ?_⟩
  · have h1 : fetch_arxiv_papers arxivRun c q m = ⟨[], c, 1⟩ := by
      simp [fetch_arxiv_papers, hmiss, herr]
    rw [h1]
    exact ⟨rfl, by simp [fetch_arxiv_papers, hmiss, herr]⟩
  · rcases hres : papersToDocuments 0 ((parsePapers (splitLines s)).take m) with e | ds
    · simp [fetch_arxiv_papers, hmiss, hok, hres]
    · rw [hres] at hbad
      simp [Except.isOk, Except.toBool] at hbad
  · simp [fetch_arxiv_papers, hmiss, hok, hres, cacheLookup]

/-- Witness for C9: a raising oracle stores nothing (the cache stays empty);
an oracle answering an empty text parses zero records yet caches the empty
list. -/
theorem claim_C9_fetch_error_not_cached_witness :
    (fetch_arxiv_papers (fun _ => .error ()) [] "q".toList 2).cache = []
    ∧ cacheLookup (cacheKey "q".toList 2)
        (fetch_arxiv_papers (fun _ => .ok []) [] "q".toList 2).cache = some [] := by
  constructor
  · have h := ((claim_C9_fetch_error_not_cached (fun _ => .error ())
      [] "q".toList 2 rfl).1 () rfl).1
    rw [h]
  · exact ((claim_C9_fetch_error_not_cached (fun _ => .ok [])
      [] "q".toList 2 rfl).2.2 [] [] rfl rfl).2

/-- C7: whenever `fetch_arxiv_papers` yields an empty paper list for a query,
`create_dynamic_rag` returns exactly the fixed "no papers found" message and
neither builds a vector index nor calls the chat-completion model. -/
theorem claim_C7_no_papers_message (arxivRun : PyText → Except Unit PyText)
    (chainAnswer : List ArxivDocument → PyText → PyText)
    (c : PaperCache) (q : PyText)
    (h : (fetch_arxiv_papers arxivRun c q 2).result = []) :
    (create_dynamic_rag arxivRun chainAnswer c q).answer
        = "No papers found for this topic.".toList
    ∧ (create_dynamic_rag arxivRun chainAnswer c q).indexBuilt = false
    ∧ (create_dynamic_rag arxivRun chainAnswer c q).llmCalls = 0 := by
  unfold create_dynamic_rag
  rw [if_pos h]
  exact ⟨rfl, rfl, rfl⟩

/-- Witness for C7: with a raising search oracle the fetch yields `[]` and the
fixed message is returned with no index build and no model call. -/
theorem claim_C7_no_papers_message_witness :
    (create_dynamic_rag (fun _ => .error ()) (fun _ _ => []) [] "q".toList).answer
        = "No papers found for this topic.".toList
    ∧ (create_dynamic_rag (fun _ => .error ()) (fun _ _ => []) [] "q".toList).indexBuilt
        = false
    ∧ (create_dynamic_rag (fun _ => .error ()) (fun _ _ => []) [] "q".toList).llmCalls = 0 :=
  claim_C7_no_papers_message (fun _ => .error ()) (fun _ _ => []) [] "q".toList rfl

/-! ## `16_Production_RAG_and_Guardrails/langgraph_agent_lib/agents.py`:
guardrail-agent routing -/

/-- The guardrail-related fields of the graph state read by
`route_after_output_validation`.  The source reads them with
`state.get(key, default)` (defaults `False`/`0`), modelled here by total
fields whose initial values are those defaults. -/
structure GuardrailsFlowState where
  validation_failed : Bool := false
  needs_refinement : Bool := false
  refinement_count : Nat := 0
deriving Repr, DecidableEq

/-- Routing outcome of `route_after_output_validation`: back to the `agent`
node, or `END`. -/
inductive GuardRoute where
  | agent
  | stop
deriving Repr, DecidableEq

/-- `route_after_output_validation(state)`: return `"agent"` when the state is
marked failed and needing refinement and the refinement counter is strictly
below `max_refinements`; in every other case return `END`. -/
def route_after_output_validation (max_refinements : Nat)
    (state : GuardrailsFlowState) : GuardRoute :=
  if state.validation_failed && state.needs_refinement then
    if state.refinement_count < max_refinements then .agent else .stop
  else .stop

/-- Modelled from the spec: `create_output_validation_node` is imported by the
agent builder but its definition is missing from the tree (the
`guardrails.py` present defines only the guard constructors, `validate_input`
and `validate_output`, and `create_guardrails_node`).  Per the spec the node
validates the latest agent message and, on failure in strict mode, marks the
state failed and flags it as needing refinement, advancing the refinement
counter; on success it clears both flags.  The guard's verdict for this pass
is the oracle argument `passed`. -/
def output_validation_node (passed : Bool)
    (state : GuardrailsFlowState) : GuardrailsFlowState :=
  if passed then { state with validation_failed := false, needs_refinement := false }
  else { validation_failed := true, needs_refinement := true,
         refinement_count := state.refinement_count + 1 }

/-- The refinement loop of the guardrail agent observed at the
`output_validation` node: given the stream of guard verdicts for the
successive generations, count how many times routing sends control back to
`agent` before the workflow ends. -/
def agentTrips (max_refinements : Nat) (state : GuardrailsFlowState) :
    List Bool → Nat
  | [] => 0
  | v :: vs =>
    match route_after_output_validation max_refinements (output_validation_node v state) with
    | .agent => 1 + agentTrips max_refinements (output_validation_node v state) vs
    | .stop => 0

lemma agentTrips_le (max_refinements : Nat) (state : GuardrailsFlowState)
    (verdicts : List Bool) :
    agentTrips max_refinements state verdicts
      ≤ max_refinements - state.refinement_count := by
  induction verdicts generalizing state with
  | nil => exact Nat.zero_le _
  | cons v vs ih =>
    rw [agentTrips]
    cases v with
    | true => simp [output_validation_node, route_after_output_validation]
    | false =>
      have hnode : output_validation_node false state
          = ⟨true, true, state.refinement_count + 1⟩ := rfl
      rw [hnode]
      by_cases hlt : state.refinement_count + 1 < max_refinements
      · have hroute : route_after_output_validation max_refinements
            ⟨true, true, state.refinement_count + 1⟩ = .agent := by
          simp [route_after_output_validation, hlt]
        rw [hroute]
        show 1 + agentTrips max_refinements ⟨true, true, state.refinement_count + 1⟩ vs
          ≤ max_refinements - state.refinement_count
        have h2 : agentTrips max_refinements ⟨true, true, state.refinement_count + 1⟩ vs
            ≤ max_refinements - (state.refinement_count + 1) :=
          ih ⟨true, true, state.refinement_count + 1⟩
        omega
      · have hroute : route_after_output_validation max_refinements
            ⟨true, true, state.refinement_count + 1⟩ = .stop := by
          simp [route_after_output_validation, hlt]
        rw [hroute]
        exact Nat.zero_le _

/-- C2: routing after `output_validation` returns to `agent` exactly when the
state is marked failed, flagged for refinement, and the refinement counter is
strictly below `max_refinements` — in every other case the workflow ends —
and consequently, starting from the initial state (counter 0), output-validation
failures can send control back through `agent` at most `max_refinements`
times, whatever the stream of guard verdicts: the loop is bounded. -/
theorem claim_C2_refinement_routing (max_refinements : Nat) :
    (∀ s : GuardrailsFlowState,
      route_after_output_validation max_refinements s = .agent
        ↔ (s.validation_failed = true ∧ s.needs_refinement = true
            ∧ s.refinement_count < max_refinements))
    ∧ (∀ verdicts : List Bool,
        agentTrips max_refinements ⟨false, false, 0⟩ verdicts ≤ max_refinements) := by
  constructor
  · intro s
    unfold route_after_output_validation
    cases hv : s.validation_failed <;> cases hn : s.needs_refinement <;>
      by_cases hlt : s.refinement_count < max_refinements <;>
        simp [hv, hn, hlt]
  · intro verdicts
    simpa using agentTrips_le max_refinements ⟨false, false, 0⟩ verdicts

/-! ## `15_A2A_LangGraph/app/tools.py`: remote delegation tool -/

/-- The `result` object of the A2A message exchange: the texts of its
artifact list (empty both when the attribute is absent and when the list is
falsy) and its textual rendering `str(result)`. -/
structure A2AResult where
  artifact : List PyText
  rendering : PyText
deriving Repr, DecidableEq

/-- Tail of the inner `_call()` coroutine once the exchange produced
`result`: the first artifact's text if the artifact list is truthy, else
`str(result)`. -/
def a2aResultText (r : A2AResult) : PyText :=
  match r.artifact with
  | t :: _ => t
  | [] => r.rendering

/-- `call_general_agent_via_a2a(query)`: drive the asynchronous exchange to
completion with `asyncio.run` and return its text.  The oracle `exchange`
models the whole card-resolution + send-message HTTP conversation
(`.error` = the exchange raised).  The tool body contains no `try`/`except`,
so a raised exchange propagates out of the tool unchanged. -/
def call_general_agent_via_a2a (exchange : PyText → Except String A2AResult)
    (query : PyText) : Except String PyText :=
  match exchange query with
  | .error e => .error e
  | .ok r => .ok (a2aResultText r)

/-- C3 counterexample: with an exchange that raises (here: connection
refused), the tool call evaluates to that propagated exception, not to a
returned string — refuting "catches every exception ... and returns a
descriptive error string". -/
theorem claim_C3_counterexample :
    call_general_agent_via_a2a (fun _ => .error "connection refused") "hi".toList
        = .error "connection refused"
    ∧ (call_general_agent_via_a2a (fun _ => .error "connection refused") "hi".toList).isOk
        = false :=
  ⟨rfl, rfl⟩

/-- C3 (amended): on a successful exchange the tool returns the first
artifact's text (or the result's rendering), but it has no exception handler:
an exception arising from the HTTP/remote-invocation exchange propagates past
the tool boundary unchanged instead of being converted to a string. -/
theorem claim_C3_exception_propagates (exchange : PyText → Except String A2AResult)
    (query : PyText) :
    (∀ e, exchange query = .error e →
        call_general_agent_via_a2a exchange query = .error e)
    ∧ (∀ r, exchange query = .ok r →
        call_general_agent_via_a2a exchange query = .ok (a2aResultText r)) := by
  constructor <;> intro x hx <;> simp [call_general_agent_via_a2a, hx]

/-- Witness for C3 (amended): a raising exchange propagates its error; a
successful exchange with one artifact returns that artifact's text. -/
theorem claim_C3_exception_propagates_witness :
    call_general_agent_via_a2a (fun _ => .error "boom") "q".toList = .error "boom"
    ∧ call_general_agent_via_a2a
        (fun _ => .ok ⟨["ans".toList], "rendered".toList⟩) "q".toList = .ok "ans".toList :=
  ⟨(claim_C3_exception_propagates (fun _ => .error "boom") "q".toList).1 "boom" rfl,
   (claim_C3_exception_propagates (fun _ => .ok ⟨["ans".toList], "rendered".toList⟩)
      "q".toList).2 ⟨["ans".toList], "rendered".toList⟩ rfl⟩

/-! ## `07_Synthetic_Data_Generation_and_LangSmith/ragas_langgraph_sdg_optimized.py`:
evolution stages -/

/-- `EvolutionType`. -/
inductive EvolutionType where
  | simple
  | multi_context
  | reasoning
deriving Repr, DecidableEq

/-- An `EvolvedQuestion` as built by the evolution nodes (the generated uuid
`id`, the empty `source_documents` and the empty `metadata` of the dataclass
are not modelled: no evolution node reads them). -/
structure EvolvedQuestion where
  question : PyText
  evolution_type : EvolutionType
  original_question : Option PyText
deriving Repr, DecidableEq

/-- The fields of `SyntheticDataState` that the three evolution nodes read or
write; all other state fields are threaded through unchanged by these nodes. -/
structure SDGState where
  simple_questions : List PyText
  evolved_questions : List EvolvedQuestion
deriving Repr, DecidableEq

/-- The per-question loop body shared by the three evolution nodes: invoke the
stage's prompt/LLM chain on the original question (the oracle `llm`, tagged
with the stage so the three distinct prompts stay distinct; `none` models a
raised call), append the stripped response as an `EvolvedQuestion` on success,
and skip the question on failure. -/
def evolveStep (llm : EvolutionType → PyText → Option PyText) (t : EvolutionType)
    (acc : List EvolvedQuestion) (question : PyText) : List EvolvedQuestion :=
  match llm t question with
  | some response => acc ++ [⟨pyStrip response, t, some question⟩]
  | none => acc

/-- `_simple_evolution_node`: starts from a fresh empty list (discarding any
prior `evolved_questions`), evolves every simple question with the
simple-evolution prompt, and stores the result. -/
def _simple_evolution_node (llm : EvolutionType → PyText → Option PyText)
    (state : SDGState) : SDGState :=
  { state with evolved_questions :=
      state.simple_questions.foldl (evolveStep llm .simple) [] }

/-- `_multi_context_evolution_node`: evolves every *original* simple question
(not the already-evolved ones) with the multi-context prompt and appends to
the existing `evolved_questions`. -/
def _multi_context_evolution_node (llm : EvolutionType → PyText → Option PyText)
    (state : SDGState) : SDGState :=
  { state with evolved_questions :=
      state.simple_questions.foldl (evolveStep llm .multi_context) state.evolved_questions }

/-- `_reasoning_evolution_node`: same as multi-context but with the reasoning
prompt. -/
def _reasoning_evolution_node (llm : EvolutionType → PyText → Option PyText)
    (state : SDGState) : SDGState :=
  { state with evolved_questions :=
      state.simple_questions.foldl (evolveStep llm .reasoning) state.evolved_questions }

/-- The slice of the graph `simple_evolution → multi_context_evolution →
reasoning_evolution` (the workflow adds these edges in this fixed order). -/
def runEvolutionStages (llm : EvolutionType → PyText → Option PyText)
    (state : SDGState) : SDGState :=
  _reasoning_evolution_node llm (_multi_context_evolution_node llm (_simple_evolution_node llm state))

/-- The questions a stage produces when no per-item call fails. -/
def evolvedBlock (llm : EvolutionType → PyText → Option PyText) (t : EvolutionType)
    (qs : List PyText) : List EvolvedQuestion :=
  qs.filterMap (fun q => (llm t q).map (fun r => ⟨pyStrip r, t, some q⟩))

lemma foldl_evolveStep (llm : EvolutionType → PyText → Option PyText)
    (t : EvolutionType) (qs : List PyText) (init : List EvolvedQuestion) :
    qs.foldl (evolveStep llm t) init = init ++ evolvedBlock llm t qs := by
  induction qs generalizing init with
  | nil => simp [evolvedBlock]
  | cons q rest ih =>
    rw [List.foldl_cons, ih]
    cases h : llm t q with
    | none => simp [evolveStep, h, evolvedBlock, List.filterMap_cons]
    | some r => simp [evolveStep, h, evolvedBlock, List.filterMap_cons]

/-- The evolved-question collection after the three stages, unconditionally:
the three blocks in stage order, each built from the original simple
questions. -/
lemma runEvolutionStages_eq (llm : EvolutionType → PyText → Option PyText)
    (state : SDGState) :
    (runEvolutionStages llm state).evolved_questions
      = evolvedBlock llm .simple state.simple_questions
        ++ evolvedBlock llm .multi_context state.simple_questions
        ++ evolvedBlock llm .reasoning state.simple_questions
    ∧ (runEvolutionStages llm state).simple_questions = state.simple_questions := by
  unfold runEvolutionStages _reasoning_evolution_node _multi_context_evolution_node
    _simple_evolution_node
  simp [foldl_evolveStep, List.append_assoc]

lemma evolvedBlock_of_total (llm : EvolutionType → PyText → Option PyText)
    (t : EvolutionType) (qs : List PyText)
    (h : ∀ q ∈ qs, (llm t q).isSome = true) :
    evolvedBlock llm t qs
      = qs.map (fun q => ⟨pyStrip ((llm t q).getD []), t, some q⟩) := by
  induction qs with
  | nil => rfl
  | cons q rest ih =>
    have hq := h q (List.mem_cons_self q rest)
    rcases hr : llm t q with _ | r
    · rw [hr] at hq; simp at hq
    · rw [evolvedBlock, List.filterMap_cons, hr]
      simp only [Option.map_some, List.map_cons, hr, Option.getD_some]
      exact congrArg _ (ih (fun p hp => h p (List.mem_cons_of_mem q hp)))

lemma filter_eq_length_one {α : Type} [DecidableEq α] {l : List α} {a : α}
    (d : l.Nodup) (h : a ∈ l) :
    (l.filter (fun p => p = a)).length = 1 := by
  induction l with
  | nil => cases h
  | cons x xs ih =>
    rw [List.filter_cons]
    rcases List.mem_cons.1 h with rfl | hmem
    · rw [if_pos (by simp)]
      have hx : ¬ a ∈ xs := (List.nodup_cons.1 d).1
      have h0 : (xs.filter (fun p => p = a)).length = 0 := by
        rw [List.length_eq_zero, List.filter_eq_nil_iff]
        intro b hb
        simp only [decide_eq_true_eq]
        rintro rfl
        exact hx hb
      rw [List.length_cons, h0]
    · by_cases hx : x = a
      · subst hx
        exact absurd hmem (List.nodup_cons.1 d).1
      · rw [if_neg (by simp [hx])]
        exact ih (List.nodup_cons.1 d).2 hmem

lemma count_evolvedBlock (llm : EvolutionType → PyText → Option PyText)
    (t t2 : EvolutionType) (qs : List PyText) (q : PyText)
    (h : ∀ p ∈ qs, (llm t p).isSome = true) :
    ((evolvedBlock llm t qs).filter
        (fun e => e.original_question = some q ∧ e.evolution_type = t2)).length
      = if t = t2 then (qs.filter (fun p => p = q)).length else 0 := by
  rw [evolvedBlock_of_total llm t qs h, List.filter_map, List.length_map]
  by_cases ht : t = t2
  · subst ht
    rw [if_pos rfl]
    congr 1
    apply List.filter_congr
    intro p _
    rw [Bool.eq_iff_iff]
    simp [Function.comp]
  · rw [if_neg ht]
    rw [List.length_eq_zero, List.filter_eq_nil_iff]
    intro p _
    simp [Function.comp, ht]

/-- C5: after the three evolution stages run with no per-item failure, the
evolved-question collection is exactly the simple block, then the
multi-context block, then the reasoning block — each block rewriting the
*original* simple questions, not the already-evolved ones — and (the simple
questions being distinct) every simple question has exactly one evolved
variant per evolution kind carrying it as `original_question`; every evolved
entry's original question is one of the simple questions. -/
theorem claim_C5_evolution_fanout (llm : EvolutionType → PyText → Option PyText)
    (state : SDGState)
    (hok : ∀ (t : EvolutionType), ∀ q ∈ state.simple_questions, (llm t q).isSome = true)
    (hnodup : state.simple_questions.Nodup) :
    ((runEvolutionStages llm state).evolved_questions
        = state.simple_questions.map
            (fun q => ⟨pyStrip ((llm .simple q).getD []), .simple, some q⟩)
          ++ state.simple_questions.map
            (fun q => ⟨pyStrip ((llm .multi_context q).getD []), .multi_context, some q⟩)
          ++ state.simple_questions.map
            (fun q => ⟨pyStrip ((llm .reasoning q).getD []), .reasoning, some q⟩))
    ∧ (∀ q ∈ state.simple_questions, ∀ t2 : EvolutionType,
        (((runEvolutionStages llm state).evolved_questions).filter
            (fun e => e.original_question = some q ∧ e.evolution_type = t2)).length = 1)
    ∧ (∀ e ∈ (runEvolutionStages llm state).evolved_questions,
        ∃ q ∈ state.simple_questions, e.original_question = some q) := by
  obtain ⟨heq, -⟩ := runEvolutionStages_eq llm state
  refine ⟨?_, fun q hq t2 => ?_, fun e he => ?_⟩
  · rw [heq, evolvedBlock_of_total llm .simple _ (hok .simple),
      evolvedBlock_of_total llm .multi_context _ (hok .multi_context),
      evolvedBlock_of_total llm .reasoning _ (hok .reasoning)]
  · have h1 := count_evolvedBlock llm .simple t2 state.simple_questions q (hok .simple)
    have h2 := count_evolvedBlock llm .multi_context t2 state.simple_questions q
      (hok .multi_context)
    have h3 := count_evolvedBlock llm .reasoning t2 state.simple_questions q (hok .reasoning)
    rw [heq, List.filter_append, List.filter_append, List.length_append,
      List.length_append, h1, h2, h3]
    cases t2 <;> simp [filter_eq_length_one hnodup hq]
  · rw [heq] at he
    have hblock : ∀ t : EvolutionType, e ∈ evolvedBlock llm t state.simple_questions →
        ∃ q ∈ state.simple_questions, e.original_question = some q := by
      intro t ht
      obtain ⟨q, hq, hfq⟩ := List.mem_filterMap.1 ht
      rcases hr : llm t q with _ | r
      · rw [hr] at hfq
        exact Option.noConfusion hfq
      · rw [hr] at hfq
        have hfq2 : (⟨pyStrip r, t, some q⟩ : EvolvedQuestion) = e := Option.some.inj hfq
        exact ⟨q, hq, by rw [← hfq2]⟩
    simp only [List.mem_append] at he
    rcases he with (h1 | h2) | h3
    · exact hblock .simple h1
    · exact hblock .multi_context h2
    · exact hblock .reasoning h3

/-- Witness for C5: with a never-failing identity model over the two distinct
simple questions "q1", "q2", "q1" has exactly one simple-tagged evolved
variant carrying it as its original question. -/
theorem claim_C5_evolution_fanout_witness :
    (((runEvolutionStages (fun _ q => some q)
          ⟨["q1".toList, "q2".toList], []⟩).evolved_questions).filter
        (fun e => e.original_question = some "q1".toList
          ∧ e.evolution_type = .simple)).length = 1 :=
  (claim_C5_evolution_fanout (fun _ q => some q) ⟨["q1".toList, "q2".toList], []⟩
    (fun _ _ _ => rfl) (by decide)).2.1 "q1".toList (by decide) .simple

/-! ### `_create_combined_dataset` -/

/-- A row of `synthetic_data['evolved_questions']` as shaped by
`generate_synthetic_data` (the free-form `metadata` map is not modelled;
`_create_combined_dataset` does not read it). -/
structure EvolvedQuestionOut where
  id : PyText
  question : PyText
  evolution_type : PyText
  original_question : Option PyText
deriving Repr, DecidableEq

/-- A row of `synthetic_data['answers']`. -/
structure AnswerOut where
  question_id : PyText
  answer : PyText
  confidence_score : ℚ
deriving Repr, DecidableEq

/-- A row of `synthetic_data['contexts']`. -/
structure ContextOut where
  question_id : PyText
  context : PyText
  relevance_score : ℚ
  source_documents : List PyText
deriving Repr, DecidableEq

/-- A row of the combined dataset. -/
structure CombinedItem where
  id : PyText
  evolution_type : PyText
  question : PyText
  original_question : Option PyText
  answer : PyText
  context : PyText
  confidence_score : ℚ
  relevance_score : ℚ
  source_documents : List PyText
deriving Repr, DecidableEq

/-- Lookup through the comprehension-built dict (`{r['question_id']: r ...}`):
a later record with the same key overwrites an earlier one, so the lookup
returns the last matching record. -/
def lastKeyed {α : Type} (key : α → PyText) (k : PyText) (l : List α) : Option α :=
  l.foldl (fun acc a => if key a = k then some a else acc) none

/-- One row of `_create_combined_dataset`: the evolved question left-joined by
its `id` with its answer record (defaults `'No answer'` / `0.0`) and its
context record (defaults `'No context'` / `0.0` / `[]`). -/
def combineRow (answers : List AnswerOut) (contexts : List ContextOut)
    (q : EvolvedQuestionOut) : CombinedItem :=
  { id := q.id
    evolution_type := q.evolution_type
    question := q.question
    original_question := q.original_question
    answer := match lastKeyed AnswerOut.question_id q.id answers with
              | some a => a.answer
              | none => "No answer".toList
    context := match lastKeyed ContextOut.question_id q.id contexts with
               | some c => c.context
               | none => "No context".toList
    confidence_score := match lastKeyed AnswerOut.question_id q.id answers with
                        | some a => a.confidence_score
                        | none => 0
    relevance_score := match lastKeyed ContextOut.question_id q.id contexts with
                       | some c => c.relevance_score
                       | none => 0
    source_documents := match lastKeyed ContextOut.question_id q.id contexts with
                        | some c => c.source_documents
                        | none => [] }

/-- `_create_combined_dataset(synthetic_data)`: one combined row per evolved
question, in order. -/
def _create_combined_dataset (eqs : List EvolvedQuestionOut)
    (answers : List AnswerOut) (contexts : List ContextOut) : List CombinedItem :=
  eqs.map (combineRow answers contexts)

lemma lastKeyed_eq_none {α : Type} (key : α → PyText) (k : PyText) (l : List α)
    (h : ∀ a ∈ l, key a ≠ k) : lastKeyed key k l = none := by
  have hgen : ∀ acc : Option α, (∀ a ∈ l, key a ≠ k) →
      l.foldl (fun acc a => if key a = k then some a else acc) acc = acc := by
    induction l with
    | nil => intro acc _; rfl
    | cons x xs ih =>
      intro acc hno
      rw [List.foldl_cons, if_neg (hno x (List.mem_cons_self x xs))]
      apply ih <;> (intro a ha; exact hno a (List.mem_cons_of_mem x ha))
  exact hgen none h

/-- C6: the combined dataset has exactly one row per evolved question, in
order; each row copies the question's own fields, takes the matching answer
record's answer and confidence score when one exists and the literal
`'No answer'` with score 0.0 otherwise, and takes the matching context
record's context, relevance score and source documents when one exists and
the literals `'No context'`, 0.0 and the empty list otherwise. -/
theorem claim_C6_combined_left_join (eqs : List EvolvedQuestionOut)
    (answers : List AnswerOut) (contexts : List ContextOut) :
    (_create_combined_dataset eqs answers contexts).length = eqs.length
    ∧ (∀ (i : Nat) (q : EvolvedQuestionOut), eqs[i]? = some q →
        ∃ row, (_create_combined_dataset eqs answers contexts)[i]? = some row
          ∧ row.id = q.id ∧ row.question = q.question
          ∧ row.evolution_type = q.evolution_type
          ∧ row.original_question = q.original_question
          ∧ ((∀ a ∈ answers, a.question_id ≠ q.id) →
              row.answer = "No answer".toList ∧ row.confidence_score = 0)
          ∧ (∀ a, lastKeyed AnswerOut.question_id q.id answers = some a →
              row.answer = a.answer ∧ row.confidence_score = a.confidence_score)
          ∧ ((∀ c ∈ contexts, c.question_id ≠ q.id) →
              row.context = "No context".toList ∧ row.relevance_score = 0
                ∧ row.source_documents = [])
          ∧ (∀ c, lastKeyed ContextOut.question_id q.id contexts = some c →
              row.context = c.context ∧ row.relevance_score = c.relevance_score
                ∧ row.source_documents = c.source_documents)) := by
  constructor
  · rw [_create_combined_dataset, List.length_map]
  · intro i q hq
    refine ⟨combineRow answers contexts q, ?_, rfl, rfl, rfl, rfl, ?_, ?_, ?_, ?_⟩
    · rw [_create_combined_dataset, List.getElem?_map, hq]
      rfl
    · intro hno
      have hn := lastKeyed_eq_none AnswerOut.question_id q.id answers hno
      constructor <;> simp [combineRow, hn]
    · intro a ha
      constructor <;> simp [combineRow, ha]
    · intro hno
      have hn := lastKeyed_eq_none ContextOut.question_id q.id contexts hno
      refine ⟨?_, ?_, ?_⟩ <;> simp [combineRow, hn]
    · intro c hc
      refine ⟨?_, ?_, ?_⟩ <;> simp [combineRow, hc]

/-- Witness for C6 at the spec's example: Q1 has only a context record, Q2 has
only an answer record; Q1's combined row shows its real context and the
literal `'No answer'`, Q2's shows the literal `'No context'` and its real
answer. -/
theorem claim_C6_combined_left_join_witness :
    ∃ row1, (_create_combined_dataset
        [⟨"id1".toList, "Q1".toList, "simple".toList, none⟩,
         ⟨"id2".toList, "Q2".toList, "simple".toList, none⟩]
        [⟨"id2".toList, "A2".toList, 1⟩]
        [⟨"id1".toList, "C1".toList, 1, ["src".toList]⟩])[0]? = some row1
      ∧ row1.answer = "No answer".toList ∧ row1.context = "C1".toList := by
  obtain ⟨row, hrow, -, -, -, -, hnoans, -, -, hctx⟩ :=
    (claim_C6_combined_left_join
      [⟨"id1".toList, "Q1".toList, "simple".toList, none⟩,
       ⟨"id2".toList, "Q2".toList, "simple".toList, none⟩]
      [⟨"id2".toList, "A2".toList, 1⟩]
      [⟨"id1".toList, "C1".toList, 1, ["src".toList]⟩]).2 0
      ⟨"id1".toList, "Q1".toList, "simple".toList, none⟩ rfl
  exact ⟨row, hrow, (hnoans (by decide)).1, (hctx ⟨"id1".toList, "C1".toList, 1, ["src".toList]⟩ rfl).1⟩
